import Mathlib

/-!
Shallow embedding of the OAuth2-authenticated OpenEMR HTTP client
(`agent/src/agent/openemr_client.py`) and proofs about its token lifecycle,
retry behaviour and error propagation.

The client is an async Python class whose only effects are (a) mutation of
its own fields and (b) outbound HTTP calls through a single `httpx` client.
We embed it as explicit state passing: the mutable fields become a
`ClientState` record, the HTTP transport becomes a script of outcomes
consumed in order (exactly how the repository's own tests drive the class,
via `httpx.MockTransport`), and every outbound call is recorded in a trace
so that theorems can count grant issuances and inspect payloads.  Python
exceptions become an `Except Err` result: the two declared exception
classes (`OpenEMRAuthError`, `OpenEMRAPIError`) plus variants for a raw
`httpx.HTTPError` escaping uncaught and for an uncaught Python error such
as `KeyError` — both of which the source can in fact produce.  Wall-clock
reads (`time.time()`) become an explicit `now : Int` parameter.
-/

set_option maxRecDepth 4000

namespace OpenEMR

/-- Minimal JSON value model: the token/registration responses only use
strings, numbers and (in the registration payload) arrays of strings. -/
inductive JVal where
  | str : String → JVal
  | num : Int → JVal
  | arr : List String → JVal
deriving DecidableEq, Repr

/-- A JSON object, as Python sees `response.json()`: key/value pairs. -/
abbrev JObj := List (String × JVal)

/-- Dictionary lookup, `data[k]` / `data.get(k)`. -/
def jget (j : JObj) (k : String) : Option JVal :=
  (j.find? (fun p => p.1 == k)).map (fun p => p.2)

/-- String view of a JSON value, for fields the client stores into its
string-typed attributes. -/
def JVal.toStr : JVal → String
  | JVal.str s => s
  | JVal.num n => toString n
  | JVal.arr _ => ""

/-- An HTTP response as the client consumes it: status code, raw body text
(`response.text`) and parsed JSON body (`response.json()`). -/
structure HttpResponse where
  status : Nat
  text : String
  json : JObj
deriving DecidableEq, Repr

/-- Outcome of one transport-level send: either a response arrived, or the
send itself raised an `httpx.HTTPError` (connection error, timeout, ...). -/
inductive HttpOutcome where
  | resp : HttpResponse → HttpOutcome
  | transportError : String → HttpOutcome
deriving DecidableEq, Repr

/-- Body of an outbound request: none, form-encoded (`data=` in httpx) or
JSON (`json=`). -/
inductive ReqBody where
  | empty : ReqBody
  | formData : List (String × String) → ReqBody
  | jsonData : JObj → ReqBody
deriving DecidableEq, Repr

/-- A recorded outbound HTTP call: everything the client hands to
`httpx.AsyncClient.request`/`post`. -/
structure Call where
  method : String
  url : String
  headers : List (String × String)
  params : List (String × String)
  body : ReqBody
deriving DecidableEq, Repr

/-- Errors a public operation can surface.  `authError` is
`OpenEMRAuthError`, `apiError` is `OpenEMRAPIError(status_code, detail)`;
`httpError` models a raw `httpx.HTTPError` propagating out of a code path
that does not catch it, and `pyError` an uncaught Python-level exception
(`KeyError`, `TypeError`). -/
inductive Err where
  | authError : String → Err
  | apiError : Nat → String → Err
  | httpError : String → Err
  | pyError : String → Err
deriving DecidableEq, Repr

/-- The mutable attributes of `OpenEMRClient`, exactly the fields set in
`__init__`. -/
structure ClientState where
  base_url : String
  site : String
  client_id : String
  client_secret : String
  username : String
  password : String
  scopes : String
  oauth_base : String
  api_base : String
  access_token : String
  refresh_token : String
  token_expires_at : Int
deriving DecidableEq, Repr

/-- A whole system configuration: client state, the scripted transport
outcomes not yet consumed, and the trace of calls made so far. -/
structure Sys where
  cs : ClientState
  pending : List HttpOutcome
  calls : List Call
deriving DecidableEq, Repr

/-- Python `s.rstrip("/")`: drop every trailing slash. -/
def rstripSlashes (s : String) : String :=
  String.mk ((s.data.reverse.dropWhile (fun c => c == '/')).reverse)

/-- The module-level `DEFAULT_SCOPES` string (adjacent string literals
concatenate in Python). -/
def DEFAULT_SCOPES : String :=
  "openid offline_access api:oemr user/patient.read user/allergy.read " ++
  "user/medication.read user/encounter.read user/vital.read " ++
  "user/medical_problem.read user/appointment.read user/practitioner.read " ++
  "user/insurance.read"

/-- The constructor `OpenEMRClient.__init__`: derives `oauth_base` and
`api_base` and starts with an empty token store. -/
def mkClient (base_url site client_id client_secret username password scopes : String) :
    ClientState :=
  let b := rstripSlashes base_url
  { base_url := b
    site := site
    client_id := client_id
    client_secret := client_secret
    username := username
    password := password
    scopes := scopes
    oauth_base := b ++ "/oauth2/" ++ site
    api_base := b ++ "/apis/" ++ site ++ "/api"
    access_token := ""
    refresh_token := ""
    token_expires_at := 0 }

/-- One transport send: consume the next scripted outcome and record the
call.  An exhausted script behaves as a connection failure (the class never
sends without the test script providing an outcome in the scenarios we
verify). -/
def httpSend (c : Call) (s : Sys) : HttpOutcome × Sys :=
  match s.pending with
  | [] => (HttpOutcome.transportError "connection closed", { s with calls := s.calls ++ [c] })
  | o :: rest => (o, { s with pending := rest, calls := s.calls ++ [c] })

/-- httpx `Response.raise_for_status` does not raise exactly when the
status is a 2xx success code. -/
def is_success (status : Nat) : Bool :=
  200 ≤ status && status < 300

/-- `OpenEMRClient._token_request`: POST the form payload to the token
endpoint; on transport failure or non-success status raise
`OpenEMRAuthError`; otherwise store `access_token`, `refresh_token`
(keeping the old one when the response omits it) and
`token_expires_at = now + expires_in - 60`, where `expires_in` defaults to
3600 only when the key is absent.  A missing `access_token` key or a
non-numeric `expires_in` would raise an uncaught Python error, the latter
after the token fields were already assigned. -/
def token_request (now : Int) (url : String) (payload : List (String × String)) (s : Sys) :
    Except Err Unit × Sys :=
  let c : Call := {
    method := "POST"
    url := url
    headers := []
    params := []
    body := ReqBody.formData payload }
  match httpSend c s with
  | (HttpOutcome.transportError m, s1) =>
      (Except.error (Err.authError ("Token request failed: " ++ m)), s1)
  | (HttpOutcome.resp r, s1) =>
      if is_success r.status then
        match jget r.json "access_token" with
        | none => (Except.error (Err.pyError "KeyError: access_token"), s1)
        | some tok =>
            let cs1 := { s1.cs with
              access_token := tok.toStr
              refresh_token := (((jget r.json "refresh_token").map JVal.toStr).getD s1.cs.refresh_token) }
            match jget r.json "expires_in" with
            | some (JVal.num n) =>
                (Except.ok (),
                  { s1 with cs := { cs1 with token_expires_at := now + n - 60 } })
            | none =>
                (Except.ok (),
                  { s1 with cs := { cs1 with token_expires_at := now + 3600 - 60 } })
            | some _ =>
                (Except.error (Err.pyError "TypeError: expires_in"), { s1 with cs := cs1 })
      else
        (Except.error (Err.authError
          ("Token request failed (HTTP " ++ toString r.status ++ "): " ++ r.text)), s1)

/-- The form payload `_get_token` builds for the password grant. -/
def passwordPayload (cs : ClientState) : List (String × String) :=
  [("grant_type", "password"), ("client_id", cs.client_id),
   ("client_secret", cs.client_secret), ("username", cs.username),
   ("password", cs.password), ("scope", cs.scopes), ("user_role", "users")]

/-- The form payload `_refresh_token_grant` builds for the refresh grant. -/
def refreshPayload (cs : ClientState) : List (String × String) :=
  [("grant_type", "refresh_token"), ("client_id", cs.client_id),
   ("client_secret", cs.client_secret), ("refresh_token", cs.refresh_token)]

/-- The outbound call a password-grant issuance performs. -/
def passwordCall (cs : ClientState) : Call :=
  { method := "POST", url := cs.oauth_base ++ "/token", headers := [], params := []
    body := ReqBody.formData (passwordPayload cs) }

/-- The outbound call a refresh-grant renewal performs. -/
def refreshCall (cs : ClientState) : Call :=
  { method := "POST", url := cs.oauth_base ++ "/token", headers := [], params := []
    body := ReqBody.formData (refreshPayload cs) }

/-- `OpenEMRClient._get_token`: password-grant token issuance. -/
def get_token (now : Int) (s : Sys) : Except Err Unit × Sys :=
  token_request now (s.cs.oauth_base ++ "/token") (passwordPayload s.cs) s

/-- `OpenEMRClient._refresh_token_grant`: try the refresh grant; if it
raises `OpenEMRAuthError`, fall back to a full password grant (any other
exception propagates). -/
def refresh_token_grant (now : Int) (s : Sys) : Except Err Unit × Sys :=
  match token_request now (s.cs.oauth_base ++ "/token") (refreshPayload s.cs) s with
  | (Except.error (Err.authError _), s1) => get_token now s1
  | other => other

/-- `OpenEMRClient._ensure_token`: when no access token is held or the
clock is at/past the stored expiry, renew via the refresh grant when a
refresh token is held, otherwise via the password grant. -/
def ensure_token (now : Int) (s : Sys) : Except Err Unit × Sys :=
  if s.cs.access_token = "" ∨ s.cs.token_expires_at ≤ now then
    if s.cs.refresh_token ≠ "" then refresh_token_grant now s
    else get_token now s
  else (Except.ok (), s)

/-- The JSON payload `_register_client` posts. -/
def registrationPayload (scopes : String) : JObj :=
  [("application_type", JVal.str "private"),
   ("client_name", JVal.str "OpenEMR AI Agent"),
   ("redirect_uris", JVal.arr ["https://localhost:9300/callback"]),
   ("token_endpoint_auth_method", JVal.str "client_secret_post"),
   ("contacts", JVal.arr ["agent@openemr.local"]),
   ("scope", JVal.str scopes)]

/-- The outbound call client registration performs. -/
def registrationCall (cs : ClientState) : Call :=
  { method := "POST", url := cs.oauth_base ++ "/registration", headers := [], params := []
    body := ReqBody.jsonData (registrationPayload cs.scopes) }

/-- `OpenEMRClient._register_client`: POST application metadata; on
transport failure or non-success status raise `OpenEMRAuthError`; on
success store the returned `client_id` and `client_secret` (the latter
defaulting to the empty string when absent). -/
def register_client (s : Sys) : Except Err Unit × Sys :=
  match httpSend (registrationCall s.cs) s with
  | (HttpOutcome.transportError m, s1) =>
      (Except.error (Err.authError ("Client registration request failed: " ++ m)), s1)
  | (HttpOutcome.resp r, s1) =>
      if is_success r.status then
        match jget r.json "client_id" with
        | none => (Except.error (Err.pyError "KeyError: client_id"), s1)
        | some cid =>
            (Except.ok (), { s1 with cs := { s1.cs with
              client_id := cid.toStr
              client_secret := (((jget r.json "client_secret").map JVal.toStr).getD "") } })
      else
        (Except.error (Err.authError
          ("Client registration failed (HTTP " ++ toString r.status ++ "): " ++ r.text)), s1)

/-- `OpenEMRClient.initialize`: register first when no client id is
configured, then always run the password grant. -/
def initClient (now : Int) (s : Sys) : Except Err Unit × Sys :=
  if s.cs.client_id = "" then
    match register_client s with
    | (Except.error e, s1) => (Except.error e, s1)
    | (Except.ok _, s1) => get_token now s1
  else get_token now s

/-- Replace the value stored under a header key (the Python code mutates
`headers["Authorization"]` in place before the 401 retry). -/
def setHeader (hs : List (String × String)) (k v : String) : List (String × String) :=
  hs.map (fun p => if p.1 = k then (k, v) else p)

/-- `OpenEMRClient._request`: ensure a token, send with the bearer header;
a transport failure of this first send raises `OpenEMRAPIError(0, ...)`;
a 401 triggers one password grant and one resend with the refreshed header
(note: the resend is outside the try/except, so a transport failure there
propagates as a raw `httpx.HTTPError`); any final status at or above 400
raises `OpenEMRAPIError(status, body)`; otherwise the JSON body is
returned. -/
def request (now : Int) (method endpoint : String)
    (params : List (String × String)) (json_data : Option JObj) (s : Sys) :
    Except Err JObj × Sys :=
  match ensure_token now s with
  | (Except.error e, s1) => (Except.error e, s1)
  | (Except.ok _, s1) =>
    let url := s1.cs.api_base ++ endpoint
    let headers := [("Authorization", "Bearer " ++ s1.cs.access_token),
                    ("Accept", "application/json")]
    let body := match json_data with
      | some j => ReqBody.jsonData j
      | none => ReqBody.empty
    let c : Call := {
      method := method
      url := url
      headers := headers
      params := params
      body := body }
    match httpSend c s1 with
    | (HttpOutcome.transportError m, s2) =>
        (Except.error (Err.apiError 0 ("Request to " ++ url ++ " failed: " ++ m)), s2)
    | (HttpOutcome.resp r, s2) =>
        if r.status = 401 then
          match get_token now s2 with
          | (Except.error e, s3) => (Except.error e, s3)
          | (Except.ok _, s3) =>
            let headers2 := setHeader headers "Authorization" ("Bearer " ++ s3.cs.access_token)
            match httpSend { c with headers := headers2 } s3 with
            | (HttpOutcome.transportError m, s4) =>
                (Except.error (Err.httpError m), s4)
            | (HttpOutcome.resp r2, s4) =>
                if 400 ≤ r2.status then
                  (Except.error (Err.apiError r2.status r2.text), s4)
                else (Except.ok r2.json, s4)
        else
          if 400 ≤ r.status then (Except.error (Err.apiError r.status r.text), s2)
          else (Except.ok r.json, s2)

/-- `OpenEMRClient.get`. -/
def get (now : Int) (endpoint : String) (params : List (String × String)) (s : Sys) :
    Except Err JObj × Sys :=
  request now "GET" endpoint params none s

/-- `OpenEMRClient.post`. -/
def post (now : Int) (endpoint : String) (json_data : Option JObj) (s : Sys) :
    Except Err JObj × Sys :=
  request now "POST" endpoint [] json_data s

/-- Grant type carried by a recorded call's form body, if any. -/
def grantType (c : Call) : Option String :=
  match c.body with
  | ReqBody.formData kvs => (kvs.find? (fun p => p.1 == "grant_type")).map (fun p => p.2)
  | _ => none

/-- A recorded call is a password-grant token request. -/
def isPasswordGrant (c : Call) : Bool :=
  grantType c == some "password"

/-- A recorded call is a refresh-grant token request. -/
def isRefreshGrant (c : Call) : Bool :=
  grantType c == some "refresh_token"

/-- Value stored under a key of a recorded call's form body. -/
def formLookup (c : Call) (k : String) : Option String :=
  match c.body with
  | ReqBody.formData kvs => (kvs.find? (fun p => p.1 == k)).map (fun p => p.2)
  | _ => none

/-- Fixture: a freshly constructed client with configured credentials. -/
def csFix : ClientState :=
  mkClient "https://localhost:9300" "default" "cid" "secret" "admin" "pass" DEFAULT_SCOPES

/-- Fixture: a client holding a valid (unexpired at time 500) token and no
refresh token. -/
def csValid : ClientState :=
  { csFix with access_token := "tok0", token_expires_at := 1000 }

/-- Fixture: a client holding a stale token and a refresh token. -/
def csStale : ClientState :=
  { csFix with access_token := "old", refresh_token := "r1", token_expires_at := 100 }

/-- Fixture: a token response granting access token t2 and nothing else. -/
def tokResp (t : String) : HttpResponse :=
  { status := 200, text := "", json := [("access_token", JVal.str t)] }

/-- Fixture for the C3 failing input: first data response is 401, the
password grant succeeds, and the resent request hits a connection error. -/
def sRetryTransport : Sys :=
  { cs := csValid
    pending := [HttpOutcome.resp { status := 401, text := "expired", json := [] },
                HttpOutcome.resp (tokResp "t2"),
                HttpOutcome.transportError "ConnectError: Connection refused"]
    calls := [] }

/-- Fixture: the very first data request hits a connection error. -/
def sFirstTransport : Sys :=
  { cs := csValid
    pending := [HttpOutcome.transportError "ConnectTimeout: timed out"]
    calls := [] }

/-- Fixture: token response declaring a zero lifetime. -/
def jExpZero : JObj :=
  [("access_token", JVal.str "t"), ("expires_in", JVal.num 0)]

/-- Fixture: a system about to receive the zero-lifetime token response. -/
def sExpZero : Sys :=
  { cs := csValid
    pending := [HttpOutcome.resp { status := 200, text := "", json := jExpZero }]
    calls := [] }

/-- Fixture: token response declaring a 7200-second lifetime. -/
def jTok7200 : JObj :=
  [("access_token", JVal.str "t"), ("expires_in", JVal.num 7200)]

/-- Fixture: token response with no expires_in field. -/
def jTokNoExp : JObj :=
  [("access_token", JVal.str "t")]

/-- Fixture: token response with an access token only (no refresh token,
declared lifetime 1800). -/
def jTokNoRefresh : JObj :=
  [("access_token", JVal.str "tNew"), ("expires_in", JVal.num 1800)]

/-- Fixture: a refresh-grant attempt that will get HTTP 400 back. -/
def sAuthFail : Sys :=
  { cs := csStale
    pending := [HttpOutcome.resp { status := 400, text := "invalid_client", json := [] }]
    calls := [] }

/-- Fixture: a registration attempt that will get HTTP 403 back. -/
def sRegFail : Sys :=
  { cs := csFix
    pending := [HttpOutcome.resp { status := 403, text := "denied", json := [] }]
    calls := [] }

/-- Fixture: a freshly constructed client with no configured client id. -/
def csNoCid : ClientState :=
  mkClient "https://localhost:9300" "default" "" "" "admin" "pass" DEFAULT_SCOPES

/-- Fixture: registration response JSON carrying a client id and secret. -/
def regRespJson (X Y : String) : JObj :=
  [("client_id", JVal.str X), ("client_secret", JVal.str Y)]

/-- Fixture: token response granting access token t1, refresh token r1 and
a 3600-second lifetime. -/
def tok1Json (t1 r1 : String) : JObj :=
  [("access_token", JVal.str t1), ("refresh_token", JVal.str r1), ("expires_in", JVal.num 3600)]

/-- Fixture: transport script for the registration round trip — successful
registration, then a password-grant response, then a refresh-grant
response. -/
def roundtripScript (X Y t1 r1 t2 : String) : List HttpOutcome :=
  [HttpOutcome.resp { status := 201, text := "", json := regRespJson X Y },
   HttpOutcome.resp { status := 200, text := "", json := tok1Json t1 r1 },
   HttpOutcome.resp (tokResp t2)]

/-- A token request records exactly one outbound POST of its form payload,
whatever the outcome. -/
theorem token_request_calls (now : Int) (url : String) (payload : List (String × String))
    (s : Sys) :
    (token_request now url payload s).2.calls
      = s.calls ++ [{ method := "POST", url := url, headers := [], params := [], body := ReqBody.formData payload }] := by
  unfold token_request httpSend
  cases s.pending with
  | nil => rfl
  | cons o rest =>
    cases o with
    | transportError m => rfl
    | resp r =>
      simp only
      split
      · split
        · rfl
        · split <;> rfl
      · rfl

/-- A password-grant issuance records exactly the password call. -/
theorem get_token_calls (now : Int) (s : Sys) :
    (get_token now s).2.calls = s.calls ++ [passwordCall s.cs] := by
  unfold get_token passwordCall
  exact token_request_calls now (s.cs.oauth_base ++ "/token") (passwordPayload s.cs) s

/-- Case analysis for a token request: either the client state is
untouched, or the request did not end in an authentication error. -/
theorem token_request_cs_cases (now : Int) (url : String)
    (payload : List (String × String)) (s : Sys) :
    (token_request now url payload s).2.cs = s.cs
      ∨ (token_request now url payload s).1 = Except.ok ()
      ∨ (token_request now url payload s).1 = Except.error (Err.pyError "KeyError: access_token")
      ∨ (token_request now url payload s).1 = Except.error (Err.pyError "TypeError: expires_in") := by
  unfold token_request httpSend
  cases s.pending with
  | nil => left; rfl
  | cons o rest =>
    cases o with
    | transportError m => left; rfl
    | resp r =>
      simp only
      split
      · split
        · right; right; left; rfl
        · split
          · right; left; rfl
          · right; left; rfl
          · right; right; right; rfl
      · left; rfl

/-- A token request that fails with an authentication error leaves the
client state untouched. -/
theorem token_request_authError_cs (now : Int) (url : String)
    (payload : List (String × String)) (s : Sys) (m : String)
    (h : (token_request now url payload s).1 = Except.error (Err.authError m)) :
    (token_request now url payload s).2.cs = s.cs := by
  rcases token_request_cs_cases now url payload s with hc | hc | hc | hc
  · exact hc
  all_goals rw [hc] at h; simp at h

/-- Case analysis for client registration: either the client state is
untouched, or the request did not end in an authentication error. -/
theorem register_client_cs_cases (s : Sys) :
    (register_client s).2.cs = s.cs
      ∨ (register_client s).1 = Except.ok ()
      ∨ (register_client s).1 = Except.error (Err.pyError "KeyError: client_id") := by
  unfold register_client httpSend
  cases s.pending with
  | nil => left; rfl
  | cons o rest =>
    cases o with
    | transportError m => left; rfl
    | resp r =>
      simp only
      split
      · split
        · right; right; rfl
        · right; left; rfl
      · left; rfl

/-- A registration that fails with an authentication error leaves the
client state untouched. -/
theorem register_client_authError_cs (s : Sys) (m : String)
    (h : (register_client s).1 = Except.error (Err.authError m)) :
    (register_client s).2.cs = s.cs := by
  rcases register_client_cs_cases s with hc | hc | hc
  · exact hc
  all_goals rw [hc] at h; simp at h

/-- A refresh-grant renewal records the refresh call, followed by the
password call exactly when the refresh attempt raised an authentication
error. -/
theorem refresh_token_grant_calls (now : Int) (s : Sys) :
    (refresh_token_grant now s).2.calls = s.calls ++ [refreshCall s.cs]
      ∨ (refresh_token_grant now s).2.calls = s.calls ++ [refreshCall s.cs, passwordCall s.cs] := by
  unfold refresh_token_grant
  rcases htr : token_request now (s.cs.oauth_base ++ "/token") (refreshPayload s.cs) s
    with ⟨res, s1⟩
  have hcalls : s1.calls = s.calls ++ [refreshCall s.cs] := by
    have h := token_request_calls now (s.cs.oauth_base ++ "/token") (refreshPayload s.cs) s
    rw [htr] at h
    exact h
  cases res with
  | ok u => left; simpa using hcalls
  | error e =>
    cases e with
    | authError m =>
      right
      have hcs : s1.cs = s.cs := by
        have h := token_request_authError_cs now (s.cs.oauth_base ++ "/token")
          (refreshPayload s.cs) s m (by rw [htr])
        rw [htr] at h
        exact h
      simp only [get_token_calls, hcalls, hcs, List.append_assoc]
      rfl
    | apiError st d => left; simpa using hcalls
    | httpError m => left; simpa using hcalls
    | pyError m => left; simpa using hcalls

/-- C2 fails as stated: a token response declaring expires_in = 0 stores
expiry = issuance time - 60 (here 940), not issuance time + 3600 - 60. -/
theorem C2_counterexample_expires_zero :
    (token_request 1000 "https://localhost:9300/oauth2/default/token" [] sExpZero).2.cs.token_expires_at = 940
      ∧ ((940 : Int) = 1000 + 3600 - 60 → False) :=
  ⟨by decide, by omega⟩

/-- C2 (amended): on a successful token response the stored expiry equals
issuance time + declared lifetime - 60, the declared value being used even
when it is 0; the default 3600 applies only when expires_in is absent. -/
theorem C2_expiry_amended (now : Int) (url : String) (payload : List (String × String))
    (cs : ClientState) (pend : List HttpOutcome) (status : Nat) (txt : String) (j : JObj)
    (t : JVal)
    (hs : is_success status = true)
    (hat : jget j "access_token" = some t) :
    (∀ n : Int, jget j "expires_in" = some (JVal.num n) →
      (token_request now url payload { cs := cs, pending := HttpOutcome.resp { status := status, text := txt, json := j } :: pend, calls := [] }).2.cs.token_expires_at = now + n - 60)
    ∧ (jget j "expires_in" = none →
      (token_request now url payload { cs := cs, pending := HttpOutcome.resp { status := status, text := txt, json := j } :: pend, calls := [] }).2.cs.token_expires_at = now + 3600 - 60) := by
  constructor
  · intro n hn
    unfold token_request httpSend
    simp [hs, hat, hn]
  · intro hn
    unfold token_request httpSend
    simp [hs, hat, hn]

/-- Witness for the amended C2 at concrete inputs: lifetime 7200 gives
expiry 1000 + 7200 - 60, absent lifetime gives 1000 + 3600 - 60. -/
theorem C2_expiry_amended_witness :
    (token_request 1000 "u" [] { cs := csValid, pending := [HttpOutcome.resp { status := 200, text := "", json := jTok7200 }], calls := [] }).2.cs.token_expires_at = 1000 + 7200 - 60
    ∧ (token_request 1000 "u" [] { cs := csValid, pending := [HttpOutcome.resp { status := 200, text := "", json := jTokNoExp }], calls := [] }).2.cs.token_expires_at = 1000 + 3600 - 60 :=
  ⟨(C2_expiry_amended 1000 "u" [] csValid [] 200 "" jTok7200 (JVal.str "t") rfl rfl).1 7200 rfl,
   (C2_expiry_amended 1000 "u" [] csValid [] 200 "" jTokNoExp (JVal.str "t") rfl rfl).2 rfl⟩

/-- C6: a successful token response that omits refresh_token leaves the
stored refresh token unchanged while overwriting the access token and the
expiry instant. -/
theorem C6_refresh_token_retained (now : Int) (url : String)
    (payload : List (String × String)) (cs : ClientState) (pend : List HttpOutcome)
    (status : Nat) (txt : String) (j : JObj) (t : String) (n : Int)
    (hs : is_success status = true)
    (hat : jget j "access_token" = some (JVal.str t))
    (hrt : jget j "refresh_token" = none)
    (hei : jget j "expires_in" = some (JVal.num n)) :
    (token_request now url payload { cs := cs, pending := HttpOutcome.resp { status := status, text := txt, json := j } :: pend, calls := [] }).1 = Except.ok ()
    ∧ (token_request now url payload { cs := cs, pending := HttpOutcome.resp { status := status, text := txt, json := j } :: pend, calls := [] }).2.cs.refresh_token = cs.refresh_token
    ∧ (token_request now url payload { cs := cs, pending := HttpOutcome.resp { status := status, text := txt, json := j } :: pend, calls := [] }).2.cs.access_token = t
    ∧ (token_request now url payload { cs := cs, pending := HttpOutcome.resp { status := status, text := txt, json := j } :: pend, calls := [] }).2.cs.token_expires_at = now + n - 60 := by
  unfold token_request httpSend
  simp [hs, hat, hrt, hei, JVal.toStr]

/-- Witness for C6: the stale client keeps refresh token r1 while access
token and expiry are overwritten from the response. -/
theorem C6_refresh_token_retained_witness :
    (token_request 500 "u" [] { cs := csStale, pending := [HttpOutcome.resp { status := 200, text := "", json := jTokNoRefresh }], calls := [] }).1 = Except.ok ()
    ∧ (token_request 500 "u" [] { cs := csStale, pending := [HttpOutcome.resp { status := 200, text := "", json := jTokNoRefresh }], calls := [] }).2.cs.refresh_token = csStale.refresh_token
    ∧ (token_request 500 "u" [] { cs := csStale, pending := [HttpOutcome.resp { status := 200, text := "", json := jTokNoRefresh }], calls := [] }).2.cs.access_token = "tNew"
    ∧ (token_request 500 "u" [] { cs := csStale, pending := [HttpOutcome.resp { status := 200, text := "", json := jTokNoRefresh }], calls := [] }).2.cs.token_expires_at = 500 + 1800 - 60 :=
  C6_refresh_token_retained 500 "u" [] csStale [] 200 "" jTokNoRefresh "tNew" 1800 rfl rfl rfl rfl

/-- C7: a GET whose (non-401) response status is at least 400 fails with
an APIError carrying the actual status and the literal body text, with no
retry and no re-authentication: the final trace holds exactly the one data
request, and the pending script and client state are untouched. -/
theorem C7_error_status_no_retry (now : Int) (cs : ClientState) (pend : List HttpOutcome)
    (endpoint : String) (params : List (String × String)) (status : Nat) (txt : String)
    (j : JObj)
    (htok : cs.access_token ≠ "") (hfresh : now < cs.token_expires_at)
    (herr : 400 ≤ status) (hn401 : status ≠ 401) :
    get now endpoint params { cs := cs, pending := HttpOutcome.resp { status := status, text := txt, json := j } :: pend, calls := [] }
      = (Except.error (Err.apiError status txt),
         { cs := cs, pending := pend,
           calls := [{ method := "GET", url := cs.api_base ++ endpoint, headers := [("Authorization", "Bearer " ++ cs.access_token), ("Accept", "application/json")], params := params, body := ReqBody.empty }] }) := by
  have h2 : ¬(cs.token_expires_at ≤ now) := by omega
  simp [get, request, ensure_token, httpSend, htok, h2, hn401, herr]

/-- C10: a token request (password or refresh grant) that fails with an
authentication error leaves access token, refresh token and expiry
unchanged; a failed registration leaves the stored client identifier and
client secret unchanged. -/
theorem C10_auth_failure_atomic :
    (∀ (now : Int) (url : String) (payload : List (String × String)) (s : Sys) (m : String),
      (token_request now url payload s).1 = Except.error (Err.authError m) →
        (token_request now url payload s).2.cs.access_token = s.cs.access_token
        ∧ (token_request now url payload s).2.cs.refresh_token = s.cs.refresh_token
        ∧ (token_request now url payload s).2.cs.token_expires_at = s.cs.token_expires_at)
    ∧ (∀ (s : Sys) (m : String),
      (register_client s).1 = Except.error (Err.authError m) →
        (register_client s).2.cs.client_id = s.cs.client_id
        ∧ (register_client s).2.cs.client_secret = s.cs.client_secret) := by
  constructor
  · intro now url payload s m h
    rw [token_request_authError_cs now url payload s m h]
    exact ⟨rfl, rfl, rfl⟩
  · intro s m h
    rw [register_client_authError_cs s m h]
    exact ⟨rfl, rfl⟩

/-- Witness for C10: an HTTP 400 token response and an HTTP 403
registration response leave the corresponding stored fields unchanged. -/
theorem C10_auth_failure_atomic_witness :
    ((token_request 500 "u" [] sAuthFail).2.cs.access_token = sAuthFail.cs.access_token
      ∧ (token_request 500 "u" [] sAuthFail).2.cs.refresh_token = sAuthFail.cs.refresh_token
      ∧ (token_request 500 "u" [] sAuthFail).2.cs.token_expires_at = sAuthFail.cs.token_expires_at)
    ∧ ((register_client sRegFail).2.cs.client_id = sRegFail.cs.client_id
      ∧ (register_client sRegFail).2.cs.client_secret = sRegFail.cs.client_secret) :=
  ⟨C10_auth_failure_atomic.1 500 "u" [] sAuthFail
      "Token request failed (HTTP 400): invalid_client" rfl,
   C10_auth_failure_atomic.2 sRegFail
      "Client registration failed (HTTP 403): denied" rfl⟩

/-- C4: before a data request, a held unexpired token runs no auth flow; no
access and no refresh token runs exactly one password grant (and no
refresh call); an absent or stale token with a refresh token held attempts
the refresh grant first instead of a password grant. -/
theorem C4_ensure_token_cases (now : Int) (cs : ClientState) (pend : List HttpOutcome) :
    (cs.access_token ≠ "" → now < cs.token_expires_at →
      ensure_token now { cs := cs, pending := pend, calls := [] }
        = (Except.ok (), { cs := cs, pending := pend, calls := [] }))
    ∧ (cs.access_token = "" → cs.refresh_token = "" →
      (ensure_token now { cs := cs, pending := pend, calls := [] }).2.calls = [passwordCall cs])
    ∧ ((cs.access_token = "" ∨ cs.token_expires_at ≤ now) → cs.refresh_token ≠ "" →
      ((ensure_token now { cs := cs, pending := pend, calls := [] }).2.calls).head?
        = some (refreshCall cs)) := by
  refine ⟨?_, ?_, ?_⟩
  · intro h1 h2
    have h3 : ¬(cs.token_expires_at ≤ now) := by omega
    simp [ensure_token, h1, h3]
  · intro h1 h2
    simp only [ensure_token]
    rw [if_pos (Or.inl h1), if_neg (by simpa using h2)]
    rw [get_token_calls]
    rfl
  · intro h1 h2
    simp only [ensure_token]
    rw [if_pos h1, if_pos (by simpa using h2)]
    rcases refresh_token_grant_calls now { cs := cs, pending := pend, calls := [] }
      with hc | hc
    · rw [hc]; rfl
    · rw [hc]; rfl

/-- Witness for C4: a valid token is a no-op; an empty store performs one
password grant; a stale token with refresh token held attempts the refresh
grant first. -/
theorem C4_ensure_token_cases_witness :
    ensure_token 500 { cs := csValid, pending := [], calls := [] }
      = (Except.ok (), { cs := csValid, pending := [], calls := [] })
    ∧ (ensure_token 500 { cs := csFix, pending := [], calls := [] }).2.calls = [passwordCall csFix]
    ∧ ((ensure_token 500 { cs := csStale, pending := [], calls := [] }).2.calls).head?
        = some (refreshCall csStale) :=
  ⟨(C4_ensure_token_cases 500 csValid []).1 (by decide) (by decide),
   (C4_ensure_token_cases 500 csFix []).2.1 rfl rfl,
   (C4_ensure_token_cases 500 csStale []).2.2 (Or.inr (by decide)) (by decide)⟩

/-- C5: a refresh-grant renewal that fails — with an error status or a
transport failure — does not propagate the error: exactly one password
grant follows, and on its success the stored access token comes from the
password-grant response; only when the fallback also fails does an
authentication error propagate. -/
theorem C5_refresh_fallback (now : Int) (cs : ClientState)
    (fs fs2 : Nat) (ftext ftext2 : String) (fjson fjson2 : JObj) (emsg t : String)
    (hfs : 400 ≤ fs) (hfs2 : 400 ≤ fs2) :
    refresh_token_grant now { cs := cs, pending := [HttpOutcome.resp { status := fs, text := ftext, json := fjson }, HttpOutcome.resp (tokResp t)], calls := [] }
      = (Except.ok (),
         { cs := { cs with access_token := t, token_expires_at := now + 3600 - 60 },
           pending := [], calls := [refreshCall cs, passwordCall cs] })
    ∧ refresh_token_grant now { cs := cs, pending := [HttpOutcome.transportError emsg, HttpOutcome.resp (tokResp t)], calls := [] }
      = (Except.ok (),
         { cs := { cs with access_token := t, token_expires_at := now + 3600 - 60 },
           pending := [], calls := [refreshCall cs, passwordCall cs] })
    ∧ refresh_token_grant now { cs := cs, pending := [HttpOutcome.resp { status := fs, text := ftext, json := fjson }, HttpOutcome.resp { status := fs2, text := ftext2, json := fjson2 }], calls := [] }
      = (Except.error (Err.authError ("Token request failed (HTTP " ++ toString fs2 ++ "): " ++ ftext2)),
         { cs := cs, pending := [], calls := [refreshCall cs, passwordCall cs] }) := by
  have hnf : ¬(200 ≤ fs ∧ fs < 300) := by omega
  have hnf2 : ¬(200 ≤ fs2 ∧ fs2 < 300) := by omega
  refine ⟨?_, ?_, ?_⟩
  · simp [refresh_token_grant, get_token, token_request, httpSend, hnf, tokResp, jget,
      refreshCall, passwordCall, JVal.toStr, is_success]
  · simp [refresh_token_grant, get_token, token_request, httpSend, tokResp, jget,
      refreshCall, passwordCall, JVal.toStr, is_success]
  · simp [refresh_token_grant, get_token, token_request, httpSend, hnf, hnf2, tokResp, jget,
      refreshCall, passwordCall, JVal.toStr, is_success]

/-- Witness for C5: a 400 refresh response followed by a successful
password grant stores the password-grant token; 400 twice propagates. -/
theorem C5_refresh_fallback_witness :
    refresh_token_grant 500 { cs := csStale, pending := [HttpOutcome.resp { status := 400, text := "invalid_grant", json := [] }, HttpOutcome.resp (tokResp "pw_tok")], calls := [] }
      = (Except.ok (),
         { cs := { csStale with access_token := "pw_tok", token_expires_at := 500 + 3600 - 60 },
           pending := [], calls := [refreshCall csStale, passwordCall csStale] })
    ∧ refresh_token_grant 500 { cs := csStale, pending := [HttpOutcome.transportError "timeout", HttpOutcome.resp (tokResp "pw_tok")], calls := [] }
      = (Except.ok (),
         { cs := { csStale with access_token := "pw_tok", token_expires_at := 500 + 3600 - 60 },
           pending := [], calls := [refreshCall csStale, passwordCall csStale] })
    ∧ refresh_token_grant 500 { cs := csStale, pending := [HttpOutcome.resp { status := 400, text := "invalid_grant", json := [] }, HttpOutcome.resp { status := 401, text := "bad creds", json := [] }], calls := [] }
      = (Except.error (Err.authError ("Token request failed (HTTP " ++ toString 401 ++ "): " ++ "bad creds")),
         { cs := csStale, pending := [], calls := [refreshCall csStale, passwordCall csStale] }) :=
  C5_refresh_fallback 500 csStale 400 401 "invalid_grant" "bad creds" [] [] "timeout" "pw_tok"
    (by decide) (by decide)

/-- Witness for C7: a 500 response with body text surfaces as
APIError(500, body) after a single call. -/
theorem C7_error_status_no_retry_witness :
    get 500 "/patient" [] { cs := csValid, pending := [HttpOutcome.resp { status := 500, text := "server blew up", json := [] }], calls := [] }
      = (Except.error (Err.apiError 500 "server blew up"),
         { cs := csValid, pending := [],
           calls := [{ method := "GET", url := csValid.api_base ++ "/patient", headers := [("Authorization", "Bearer " ++ csValid.access_token), ("Accept", "application/json")], params := [], body := ReqBody.empty }] }) :=
  C7_error_status_no_retry 500 csValid [] "/patient" [] 500 "server blew up" []
    (by decide) (by decide) (by decide) (by decide)

/-- C1: a GET whose first response is 401 performs exactly one password
grant, resends the identical request once with the refreshed bearer
header, and treats the retry's result as final: a second 401 surfaces as
APIError(401, body) with no further retry. -/
theorem C1_401_single_retry (now : Int) (cs : ClientState) (endpoint : String)
    (params : List (String × String)) (r1text : String) (r1json : JObj) (t2 : String)
    (status2 : Nat) (text2 : String) (json2 : JObj)
    (htok : cs.access_token ≠ "") (hfresh : now < cs.token_expires_at) :
    (get now endpoint params { cs := cs, pending := [HttpOutcome.resp { status := 401, text := r1text, json := r1json }, HttpOutcome.resp (tokResp t2), HttpOutcome.resp { status := status2, text := text2, json := json2 }], calls := [] }).2.calls
      = [{ method := "GET", url := cs.api_base ++ endpoint, headers := [("Authorization", "Bearer " ++ cs.access_token), ("Accept", "application/json")], params := params, body := ReqBody.empty },
         passwordCall cs,
         { method := "GET", url := cs.api_base ++ endpoint, headers := [("Authorization", "Bearer " ++ t2), ("Accept", "application/json")], params := params, body := ReqBody.empty }]
    ∧ ((get now endpoint params { cs := cs, pending := [HttpOutcome.resp { status := 401, text := r1text, json := r1json }, HttpOutcome.resp (tokResp t2), HttpOutcome.resp { status := status2, text := text2, json := json2 }], calls := [] }).2.calls).countP isPasswordGrant = 1
    ∧ ((get now endpoint params { cs := cs, pending := [HttpOutcome.resp { status := 401, text := r1text, json := r1json }, HttpOutcome.resp (tokResp t2), HttpOutcome.resp { status := status2, text := text2, json := json2 }], calls := [] }).2.calls).countP isRefreshGrant = 0
    ∧ (get now endpoint params { cs := cs, pending := [HttpOutcome.resp { status := 401, text := r1text, json := r1json }, HttpOutcome.resp (tokResp t2), HttpOutcome.resp { status := status2, text := text2, json := json2 }], calls := [] }).1
        = (if 400 ≤ status2 then Except.error (Err.apiError status2 text2) else Except.ok json2)
    ∧ (status2 = 401 →
        (get now endpoint params { cs := cs, pending := [HttpOutcome.resp { status := 401, text := r1text, json := r1json }, HttpOutcome.resp (tokResp t2), HttpOutcome.resp { status := status2, text := text2, json := json2 }], calls := [] }).1
          = Except.error (Err.apiError 401 text2)) := by
  have h2 : ¬(cs.token_expires_at ≤ now) := by omega
  have hmain : get now endpoint params { cs := cs, pending := [HttpOutcome.resp { status := 401, text := r1text, json := r1json }, HttpOutcome.resp (tokResp t2), HttpOutcome.resp { status := status2, text := text2, json := json2 }], calls := [] }
      = ((if 400 ≤ status2 then Except.error (Err.apiError status2 text2) else Except.ok json2),
         { cs := { cs with access_token := t2, token_expires_at := now + 3600 - 60 },
           pending := [],
           calls := [{ method := "GET", url := cs.api_base ++ endpoint, headers := [("Authorization", "Bearer " ++ cs.access_token), ("Accept", "application/json")], params := params, body := ReqBody.empty },
                     passwordCall cs,
                     { method := "GET", url := cs.api_base ++ endpoint, headers := [("Authorization", "Bearer " ++ t2), ("Accept", "application/json")], params := params, body := ReqBody.empty }] }) := by
    by_cases hs2 : 400 ≤ status2 <;>
      simp [get, request, ensure_token, httpSend, get_token, token_request, passwordCall,
        passwordPayload, tokResp, jget, setHeader, JVal.toStr, is_success, htok, h2, hs2]
  refine ⟨by rw [hmain], ?_, ?_, by rw [hmain], ?_⟩
  · rw [hmain]
    simp [isPasswordGrant, isRefreshGrant, grantType, passwordCall, passwordPayload,
      List.countP_cons, List.countP_nil]
  · rw [hmain]
    simp [isPasswordGrant, isRefreshGrant, grantType, passwordCall, passwordPayload,
      List.countP_cons, List.countP_nil]
  · intro h5
    rw [hmain]
    simp [h5]

/-- Witness for C1: with a valid token, a 401 then a granted token then a
second 401 produce the three-call trace and a final APIError 401. -/
theorem C1_401_single_retry_witness :
    (get 500 "/patient" [] { cs := csValid, pending := [HttpOutcome.resp { status := 401, text := "expired", json := [] }, HttpOutcome.resp (tokResp "t2"), HttpOutcome.resp { status := 401, text := "still expired", json := [] }], calls := [] }).2.calls
      = [{ method := "GET", url := csValid.api_base ++ "/patient", headers := [("Authorization", "Bearer " ++ csValid.access_token), ("Accept", "application/json")], params := [], body := ReqBody.empty },
         passwordCall csValid,
         { method := "GET", url := csValid.api_base ++ "/patient", headers := [("Authorization", "Bearer " ++ "t2"), ("Accept", "application/json")], params := [], body := ReqBody.empty }]
    ∧ ((get 500 "/patient" [] { cs := csValid, pending := [HttpOutcome.resp { status := 401, text := "expired", json := [] }, HttpOutcome.resp (tokResp "t2"), HttpOutcome.resp { status := 401, text := "still expired", json := [] }], calls := [] }).2.calls).countP isPasswordGrant = 1
    ∧ ((get 500 "/patient" [] { cs := csValid, pending := [HttpOutcome.resp { status := 401, text := "expired", json := [] }, HttpOutcome.resp (tokResp "t2"), HttpOutcome.resp { status := 401, text := "still expired", json := [] }], calls := [] }).2.calls).countP isRefreshGrant = 0
    ∧ (get 500 "/patient" [] { cs := csValid, pending := [HttpOutcome.resp { status := 401, text := "expired", json := [] }, HttpOutcome.resp (tokResp "t2"), HttpOutcome.resp { status := 401, text := "still expired", json := [] }], calls := [] }).1
        = (if 400 ≤ 401 then Except.error (Err.apiError 401 "still expired") else Except.ok [])
    ∧ ((401 : Nat) = 401 →
        (get 500 "/patient" [] { cs := csValid, pending := [HttpOutcome.resp { status := 401, text := "expired", json := [] }, HttpOutcome.resp (tokResp "t2"), HttpOutcome.resp { status := 401, text := "still expired", json := [] }], calls := [] }).1
          = Except.error (Err.apiError 401 "still expired")) :=
  C1_401_single_retry 500 csValid "/patient" [] "expired" [] "t2" 401 "still expired" []
    (by decide) (by decide)

/-- C3 fails on the code: the resend after a 401 sits outside the
try/except that wraps the first send, so a transport failure during the
retry escapes as a raw httpx.HTTPError instead of APIError(0); a transport
failure of the first send does produce APIError(0) and is not retried. -/
theorem C3_retry_transport_escapes :
    (get 500 "/patient" [] sRetryTransport).1
        = Except.error (Err.httpError "ConnectError: Connection refused")
    ∧ (get 500 "/patient" [] sFirstTransport).1
        = Except.error (Err.apiError 0 "Request to https://localhost:9300/apis/default/api/patient failed: ConnectTimeout: timed out")
    ∧ (get 500 "/patient" [] sFirstTransport).2.calls.length = 1 := by
  refine ⟨rfl, rfl, rfl⟩

/-- C8: initialization with an empty configured client identifier performs
registration first and the password grant second, in that order; with a
non-empty identifier it performs the password grant only. -/
theorem C8_initClient_order (now : Int) (cs : ClientState) (pend : List HttpOutcome)
    (rs : Nat) (rtext : String) (X Y : String)
    (hrs : 200 ≤ rs ∧ rs < 300) :
    (cs.client_id = "" →
      (initClient now { cs := cs, pending := HttpOutcome.resp { status := rs, text := rtext, json := regRespJson X Y } :: pend, calls := [] }).2.calls
        = [registrationCall cs, passwordCall { cs with client_id := X, client_secret := Y }])
    ∧ (cs.client_id ≠ "" →
      (initClient now { cs := cs, pending := pend, calls := [] }).2.calls = [passwordCall cs]) := by
  constructor
  · intro h
    simp [initClient, register_client, registrationCall, registrationPayload, httpSend,
      regRespJson, jget, JVal.toStr, is_success, get_token_calls, passwordCall,
      passwordPayload, hrs, h]
  · intro h
    simp [initClient, get_token_calls, h]

/-- Witness for C8: an empty client id registers then issues; the
configured client issues only. -/
theorem C8_initClient_order_witness :
    (initClient 500 { cs := csNoCid, pending := HttpOutcome.resp { status := 201, text := "", json := regRespJson "X" "Y" } :: [HttpOutcome.resp (tokResp "t1")], calls := [] }).2.calls
      = [registrationCall csNoCid, passwordCall { csNoCid with client_id := "X", client_secret := "Y" }]
    ∧ (initClient 500 { cs := csFix, pending := [HttpOutcome.resp (tokResp "t1")], calls := [] }).2.calls = [passwordCall csFix] :=
  ⟨(C8_initClient_order 500 csNoCid [HttpOutcome.resp (tokResp "t1")] 201 "" "X" "Y"
      (by decide)).1 rfl,
   (C8_initClient_order 500 csFix [HttpOutcome.resp (tokResp "t1")] 201 "" "X" "Y"
      (by decide)).2 (by decide)⟩

/-- C9: a registration response carrying client id X and secret Y results
in every subsequent token request — the password grant issued by
initialization and the refresh grant issued later — carrying
client_id = X and client_secret = Y in its form payload. -/
theorem C9_registration_roundtrip (now : Int) (cs : ClientState) (X Y t1 r1 t2 : String)
    (hcid : cs.client_id = "") (hr1 : r1 ≠ "") :
    (initClient now { cs := cs, pending := roundtripScript X Y t1 r1 t2, calls := [] }).1 = Except.ok ()
    ∧ ((ensure_token (now + 3600) (initClient now { cs := cs, pending := roundtripScript X Y t1 r1 t2, calls := [] }).2).2.calls).map grantType
        = [none, some "password", some "refresh_token"]
    ∧ ((ensure_token (now + 3600) (initClient now { cs := cs, pending := roundtripScript X Y t1 r1 t2, calls := [] }).2).2.calls).map (fun c => (formLookup c "client_id", formLookup c "client_secret"))
        = [(none, none), (some X, some Y), (some X, some Y)] := by
  have hle : now + 3600 - 60 ≤ now + 3600 := by omega
  refine ⟨?_, ?_, ?_⟩ <;>
    simp [initClient, register_client, registrationCall, registrationPayload, httpSend,
      roundtripScript, regRespJson, tok1Json, tokResp, jget, JVal.toStr, is_success,
      get_token, token_request, refresh_token_grant, ensure_token, passwordPayload,
      refreshPayload, formLookup, grantType, hcid, hr1, hle]

/-- Witness for C9: concrete registration credentials X/Y reach both the
password-grant and the refresh-grant payloads. -/
theorem C9_registration_roundtrip_witness :
    (initClient 500 { cs := csNoCid, pending := roundtripScript "X" "Y" "t1" "r1" "t2", calls := [] }).1 = Except.ok ()
    ∧ ((ensure_token (500 + 3600) (initClient 500 { cs := csNoCid, pending := roundtripScript "X" "Y" "t1" "r1" "t2", calls := [] }).2).2.calls).map grantType
        = [none, some "password", some "refresh_token"]
    ∧ ((ensure_token (500 + 3600) (initClient 500 { cs := csNoCid, pending := roundtripScript "X" "Y" "t1" "r1" "t2", calls := [] }).2).2.calls).map (fun c => (formLookup c "client_id", formLookup c "client_secret"))
        = [(none, none), (some "X", some "Y"), (some "X", some "Y")] :=
  C9_registration_roundtrip 500 csNoCid "X" "Y" "t1" "r1" "t2" rfl (by decide)

end OpenEMR
